import Mathlib

/-!
Shallow embedding of the ink! governance contract `dao`
(src/contracts/dao/lib.rs) and proofs about its operations.

Machine integers are modelled as `Nat` with explicit bounds: `Balance` is
u128, block timestamps are u64, `quorum` is u8.  ink! contracts are compiled
with overflow checks enabled (cargo-contract enforces this), so a checked
arithmetic step that overflows, a division by zero, and `Option::unwrap` on
`None` all panic; a panicking message traps and the call reverts.  The
embedding models a trap by returning `none`, and the step relation below
admits no transition for a trapped call.  A message that returns `Err`
commits the storage writes made before the failing step, as the contract's
off-chain environment does and as the repository's own comments assume.

Everything external to the contract enters each operation as an explicit
parameter: the block timestamp `t`, the caller, the two PSP22 oracle reads
(`balance_of` and `total_supply`, each `none` when the cross-contract call
fails at either level), the engine's own balance and the outcome of the
native value transfer.
-/

def U64_MOD : Nat := 2 ^ 64
def U128_MOD : Nat := 2 ^ 128

/-- `const ONE_MINUTE: u64 = 60`. -/
def ONE_MINUTE : Nat := 60

abbrev AccountId := Nat
abbrev Balance := Nat
abbrev ProposalId := Nat

inductive VoteType where
  | For
  | Against
deriving DecidableEq

inductive GovernorError where
  | AmountShouldNotBeZero
  | DurationError
  | QuorumNotReached
  | ProposalNotAccepted
  | ProposalNotFound
  | ProposalAlreadyExecuted
  | VotePeriodExpired
  | AlreadyVoted
  | TransactionFailed
  | NotEnoughBalance
deriving DecidableEq

structure Proposal where
  «to» : AccountId
  vote_start : Nat
  vote_end : Nat
  executed : Bool
  amount : Balance
deriving DecidableEq

structure ProposalVote where
  for_votes : Balance
  against_votes : Balance
deriving DecidableEq

/-- The `#[ink(storage)]` struct `Governor`.  The three `Mapping`s are
modelled as functions. -/
structure Governor where
  proposals : ProposalId → Option Proposal
  proposal_votes : ProposalId → Option ProposalVote
  votes : ProposalId × AccountId → Bool
  next_proposal_id : ProposalId
  governance_token : AccountId
  quorum : Nat

/-- The constructor `Governor::new`. -/
def Governor.new (governance_token : AccountId) (quorum : Nat) : Governor :=
  { proposals := fun _ => none
    proposal_votes := fun _ => none
    votes := fun _ => false
    next_proposal_id := 0
    governance_token := governance_token
    quorum := quorum }

/-- `Governor::propose`.  `t` is `self.env().block_timestamp()`.  The two
`none` branches model the checked-u64 overflow of
`block_timestamp + duration * ONE_MINUTE` and the checked-u128 overflow of
`next_proposal_id += 1`. -/
def propose (g : Governor) (t : Nat) («to» : AccountId) (amount : Balance)
    (duration : Nat) : Option (Except GovernorError Unit × Governor) :=
  if amount = 0 then some (.error .AmountShouldNotBeZero, g)
  else if duration = 0 then some (.error .DurationError, g)
  else if U64_MOD ≤ t + duration * ONE_MINUTE then none
  else if U128_MOD ≤ g.next_proposal_id + 1 then none
  else
    some (.ok (),
      { g with
        proposals := fun i =>
          if i = g.next_proposal_id then
            some { «to» := «to», vote_start := t, vote_end := t + duration * ONE_MINUTE,
                   executed := false, amount := amount }
          else g.proposals i
        proposal_votes := fun i =>
          if i = g.next_proposal_id then some { for_votes := 0, against_votes := 0 }
          else g.proposal_votes i
        next_proposal_id := g.next_proposal_id + 1 })

/-- `self.votes.insert((proposal_id, caller), &())`. -/
def mark_voted (g : Governor) (proposal_id : ProposalId) (caller : AccountId) :
    Governor :=
  { g with votes := fun k => if k = (proposal_id, caller) then true else g.votes k }

/-- `Governor::get_vote_weight`, with the two oracle reads supplied as
parameters (`none` models a failed cross-contract call; `get_caller_balance`
and `get_total_supply` both map any failure to `TransactionFailed`).  The
result `none` models a panic: checked-u128 overflow of
`caller_balance * 100`, or division by zero when the oracle reports a zero
total supply. -/
def get_vote_weight (balance_of total_supply : Option Balance) :
    Option (Except GovernorError Balance) :=
  match balance_of with
  | none => some (.error .TransactionFailed)
  | some caller_balance =>
    match total_supply with
    | none => some (.error .TransactionFailed)
    | some supply =>
      if U128_MOD ≤ caller_balance * 100 then none
      else if supply = 0 then none
      else some (.ok (caller_balance * 100 / supply))

/-- `Governor::vote`.  `t` is the block timestamp and `caller` is
`self.env().caller()`.  `none` models a panic: one inherited from
`get_vote_weight`, the `.unwrap()` on the tally lookup, or checked-u128
overflow of the tally update. -/
def vote (g : Governor) (t : Nat) (caller : AccountId) (proposal_id : ProposalId)
    (v : VoteType) (balance_of total_supply : Option Balance) :
    Option (Except GovernorError Unit × Governor) :=
  match g.proposals proposal_id with
  | none => some (.error .ProposalNotFound, g)
  | some proposal =>
    if proposal.executed then some (.error .ProposalAlreadyExecuted, g)
    else if proposal.vote_end < t then some (.error .VotePeriodExpired, g)
    else if g.votes (proposal_id, caller) then some (.error .AlreadyVoted, g)
    else
      match get_vote_weight balance_of total_supply with
      | none => none
      | some (.error e) => some (.error e, mark_voted g proposal_id caller)
      | some (.ok caller_weight) =>
        match (mark_voted g proposal_id caller).proposal_votes proposal_id with
        | none => none
        | some proposal_vote =>
          match v with
          | .For =>
            if U128_MOD ≤ proposal_vote.for_votes + caller_weight then none
            else
              some (.ok (),
                { mark_voted g proposal_id caller with
                  proposal_votes := fun i =>
                    if i = proposal_id then
                      some { proposal_vote with
                             for_votes := proposal_vote.for_votes + caller_weight }
                    else (mark_voted g proposal_id caller).proposal_votes i })
          | .Against =>
            if U128_MOD ≤ proposal_vote.against_votes + caller_weight then none
            else
              some (.ok (),
                { mark_voted g proposal_id caller with
                  proposal_votes := fun i =>
                    if i = proposal_id then
                      some { proposal_vote with
                             against_votes := proposal_vote.against_votes + caller_weight }
                    else (mark_voted g proposal_id caller).proposal_votes i })

/-- The result of `Governor::transfer`: `env_balance` is
`self.env().balance()` and `transfer_ok` is whether the native
`self.env().transfer` succeeds. -/
def transfer_result (env_balance : Nat) (transfer_ok : Bool) (amount : Balance) :
    Except GovernorError Unit :=
  if env_balance < amount then .error .NotEnoughBalance
  else if transfer_ok then .ok () else .error .TransactionFailed

/-- The message `Governor::transfer`; it writes no contract storage. -/
def transfer (g : Governor) (env_balance : Nat) (transfer_ok : Bool)
    (_to : AccountId) (amount : Balance) : Except GovernorError Unit × Governor :=
  (transfer_result env_balance transfer_ok amount, g)

/-- `Governor::execute`.  `none` models a panic: the `.unwrap()` on the tally
lookup (and on the re-read of the proposal), or checked-u128 overflow of
`for_votes + against_votes` before the `as u8` cast.  The source sets
`executed := true` only on a local copy of the proposal and never inserts it
back into `self.proposals`, so every branch returns the storage unchanged. -/
def execute (g : Governor) (proposal_id : ProposalId) (env_balance : Nat)
    (transfer_ok : Bool) : Option (Except GovernorError Unit × Governor) :=
  match g.proposals proposal_id with
  | none => some (.error .ProposalNotFound, g)
  | some proposal =>
    if proposal.executed then some (.error .ProposalAlreadyExecuted, g)
    else
      match g.proposal_votes proposal_id with
      | none => none
      | some proposal_vote =>
        if U128_MOD ≤ proposal_vote.for_votes + proposal_vote.against_votes then none
        else
          if (proposal_vote.for_votes + proposal_vote.against_votes) % 256 < g.quorum then
            some (.error .QuorumNotReached, g)
          else if proposal_vote.for_votes < proposal_vote.against_votes then
            some (.error .ProposalNotAccepted, g)
          else
            match g.proposals proposal_id with
            | none => none
            | some proposal2 =>
              some (transfer_result env_balance transfer_ok proposal2.amount, g)

/-! ### The engine as a transition system -/

/-- One engine call: any of the four mutating messages, with arbitrary
external inputs (bounded by their machine widths), completing without a
trap.  A trapped (panicking) call reverts and produces no transition. -/
inductive Step : Governor → Governor → Prop where
  | prop_step {g g' : Governor} (t dst amount duration : Nat)
      (r : Except GovernorError Unit)
      (ht : t < U64_MOD) (ha : amount < U128_MOD) (hd : duration < U64_MOD)
      (h : propose g t dst amount duration = some (r, g')) : Step g g'
  | vote_step {g g' : Governor} (t caller pid : Nat) (v : VoteType)
      (b s : Option Balance) (r : Except GovernorError Unit)
      (ht : t < U64_MOD)
      (hb : ∀ x, b = some x → x < U128_MOD) (hs : ∀ x, s = some x → x < U128_MOD)
      (h : vote g t caller pid v b s = some (r, g')) : Step g g'
  | exec_step {g g' : Governor} (pid envB : Nat) (tOk : Bool)
      (r : Except GovernorError Unit)
      (h : execute g pid envB tOk = some (r, g')) : Step g g'
  | xfer_step {g g' : Governor} (envB : Nat) (tOk : Bool) (dst amount : Nat)
      (r : Except GovernorError Unit)
      (h : transfer g envB tOk dst amount = (r, g')) : Step g g'

/-- Any finite sequence of engine calls. -/
abbrev Steps : Governor → Governor → Prop := Relation.ReflTransGen Step

/-- States reachable from construction (`quorum` is a u8 value). -/
def Reachable (g : Governor) : Prop :=
  ∃ token quorum, quorum < 256 ∧ Steps (Governor.new token quorum) g

/-- The store-alignment invariant: a proposal id has a `Proposal` entry iff
it is below the counter, iff it has a `ProposalVote` entry. -/
def GovInv (g : Governor) : Prop :=
  ∀ p : ProposalId,
    ((g.proposals p).isSome ↔ p < g.next_proposal_id) ∧
    ((g.proposals p).isSome ↔ (g.proposal_votes p).isSome)

/-! ### State-change lemmas for the four messages -/

theorem execute_state {g g' : Governor} {pid envB : Nat} {tOk : Bool}
    {r : Except GovernorError Unit} (h : execute g pid envB tOk = some (r, g')) :
    g' = g := by
  unfold execute at h
  repeat' split at h
  all_goals first
    | exact Option.noConfusion h
    | (injection h with h1; injection h1 with hr hg; exact hg.symm)

theorem transfer_state {g g' : Governor} {envB : Nat} {tOk : Bool}
    {dst amount : Nat} {r : Except GovernorError Unit}
    (h : transfer g envB tOk dst amount = (r, g')) : g' = g := by
  unfold transfer at h
  injection h with hr hg
  exact hg.symm

theorem vote_state {g g' : Governor} {t caller pid : Nat} {v : VoteType}
    {b s : Option Balance} {r : Except GovernorError Unit}
    (h : vote g t caller pid v b s = some (r, g')) :
    g'.proposals = g.proposals ∧ g'.next_proposal_id = g.next_proposal_id ∧
    g'.quorum = g.quorum ∧
    (∀ q, (g'.proposal_votes q).isSome = (g.proposal_votes q).isSome) ∧
    (∀ k, g.votes k = true → g'.votes k = true) := by
  unfold vote at h
  repeat' split at h
  all_goals try exact Option.noConfusion h
  all_goals (injection h with h1; injection h1 with hr hg; subst hg)
  · exact ⟨rfl, rfl, rfl, fun _ => rfl, fun _ hk => hk⟩
  · exact ⟨rfl, rfl, rfl, fun _ => rfl, fun _ hk => hk⟩
  · exact ⟨rfl, rfl, rfl, fun _ => rfl, fun _ hk => hk⟩
  · exact ⟨rfl, rfl, rfl, fun _ => rfl, fun _ hk => hk⟩
  · -- weight computation failed; state is `mark_voted g pid caller`
    refine ⟨rfl, rfl, rfl, fun _ => rfl, fun k hk => ?_⟩
    show (if k = (pid, caller) then true else g.votes k) = true
    by_cases hk2 : k = (pid, caller)
    · rw [if_pos hk2]
    · rw [if_neg hk2]; exact hk
  · -- successful `For` vote
    rename_i pv heq hv hov
    refine ⟨rfl, rfl, rfl, fun q => ?_, fun k hk => ?_⟩
    · show (if q = pid then _ else g.proposal_votes q).isSome =
        (g.proposal_votes q).isSome
      by_cases hq : q = pid
      · subst hq
        rw [if_pos rfl]
        have hx : g.proposal_votes q = some pv := heq
        rw [hx]
        rfl
      · rw [if_neg hq]
    · show (if k = (pid, caller) then true else g.votes k) = true
      by_cases hk2 : k = (pid, caller)
      · rw [if_pos hk2]
      · rw [if_neg hk2]; exact hk
  · -- successful `Against` vote
    rename_i pv heq hv hov
    refine ⟨rfl, rfl, rfl, fun q => ?_, fun k hk => ?_⟩
    · show (if q = pid then _ else g.proposal_votes q).isSome =
        (g.proposal_votes q).isSome
      by_cases hq : q = pid
      · subst hq
        rw [if_pos rfl]
        have hx : g.proposal_votes q = some pv := heq
        rw [hx]
        rfl
      · rw [if_neg hq]
    · show (if k = (pid, caller) then true else g.votes k) = true
      by_cases hk2 : k = (pid, caller)
      · rw [if_pos hk2]
      · rw [if_neg hk2]; exact hk

theorem propose_state {g g' : Governor} {t dst amount duration : Nat}
    {r : Except GovernorError Unit}
    (h : propose g t dst amount duration = some (r, g')) (hinv : GovInv g) :
    GovInv g' ∧ (∀ pid p, g.proposals pid = some p → g'.proposals pid = some p) ∧
    g'.votes = g.votes := by
  unfold propose at h
  repeat' split at h
  all_goals try exact Option.noConfusion h
  all_goals (injection h with h1; injection h1 with hr hg; subst hg)
  · exact ⟨hinv, fun _ _ hp => hp, rfl⟩
  · exact ⟨hinv, fun _ _ hp => hp, rfl⟩
  · refine ⟨fun p => ⟨?_, ?_⟩, fun pid p hp => ?_, rfl⟩
    · show (if p = g.next_proposal_id then _ else g.proposals p).isSome ↔
        p < g.next_proposal_id + 1
      by_cases hp : p = g.next_proposal_id
      · subst hp; simp
      · rw [if_neg hp, (hinv p).1]
        constructor
        · intro hlt; exact Nat.lt_succ_of_lt hlt
        · intro hlt; exact lt_of_le_of_ne (Nat.lt_succ_iff.mp hlt) hp
    · show (if p = g.next_proposal_id then _ else g.proposals p).isSome ↔
        (if p = g.next_proposal_id then _ else g.proposal_votes p).isSome
      by_cases hp : p = g.next_proposal_id
      · rw [if_pos hp, if_pos hp]; simp
      · rw [if_neg hp, if_neg hp]; exact (hinv p).2
    · have hlt : pid < g.next_proposal_id := (hinv pid).1.mp (by rw [hp]; rfl)
      show (if pid = g.next_proposal_id then _ else g.proposals pid) = some p
      rw [if_neg (Nat.ne_of_lt hlt)]
      exact hp

theorem vote_inv {g g' : Governor} {t caller pid : Nat} {v : VoteType}
    {b s : Option Balance} {r : Except GovernorError Unit}
    (h : vote g t caller pid v b s = some (r, g')) (hinv : GovInv g) :
    GovInv g' := by
  obtain ⟨hp, hn, -, hpv, -⟩ := vote_state h
  intro p
  constructor
  · rw [hp, hn]; exact (hinv p).1
  · rw [hp]
    have h2 := (hinv p).2
    rw [← hpv p] at h2
    exact h2

theorem step_mono {g g' : Governor} (h : Step g g') (hinv : GovInv g) :
    GovInv g' ∧ (∀ pid p, g.proposals pid = some p → g'.proposals pid = some p) ∧
    (∀ k, g.votes k = true → g'.votes k = true) := by
  cases h with
  | prop_step t dst amount duration r ht ha hd h =>
    obtain ⟨hi, hp, hv⟩ := propose_state h hinv
    exact ⟨hi, hp, fun k hk => by rw [hv]; exact hk⟩
  | vote_step t caller pid v b s r ht hb hs h =>
    obtain ⟨hp, -, -, -, hv⟩ := vote_state h
    exact ⟨vote_inv h hinv, fun pid p hpe => by rw [hp]; exact hpe, hv⟩
  | exec_step pid envB tOk r h =>
    obtain rfl := execute_state h
    exact ⟨hinv, fun _ _ hp => hp, fun _ hk => hk⟩
  | xfer_step envB tOk dst amount r h =>
    obtain rfl := transfer_state h
    exact ⟨hinv, fun _ _ hp => hp, fun _ hk => hk⟩

theorem steps_mono {g g' : Governor} (h : Steps g g') (hinv : GovInv g) :
    GovInv g' ∧ (∀ pid p, g.proposals pid = some p → g'.proposals pid = some p) ∧
    (∀ k, g.votes k = true → g'.votes k = true) := by
  induction h with
  | refl => exact ⟨hinv, fun _ _ hp => hp, fun _ hk => hk⟩
  | tail hab hbc ih =>
    obtain ⟨ib, pb, vb⟩ := ih
    obtain ⟨ic, pc, vc⟩ := step_mono hbc ib
    exact ⟨ic, fun pid p hp => pc pid p (pb pid p hp),
           fun k hk => vc k (vb k hk)⟩

theorem new_inv (token quorum : Nat) : GovInv (Governor.new token quorum) := by
  intro p
  simp [Governor.new]

theorem reachable_inv {g : Governor} (h : Reachable g) : GovInv g := by
  obtain ⟨token, quorum, -, hsteps⟩ := h
  exact (steps_mono hsteps (new_inv token quorum)).1

/-! ### Concrete states used in witnesses and counterexamples -/

/-- The proposal created by `propose(9, 100, 1)` at time 0. -/
def pDemo : Proposal :=
  { «to» := 9, vote_start := 0, vote_end := 60, executed := false, amount := 100 }

/-- The engine after `new(1, 50)` followed by `propose(9, 100, 1)` at time 0. -/
def gAfterPropose : Governor :=
  { proposals := fun i => if i = 0 then some pDemo else none
    proposal_votes := fun i =>
      if i = 0 then some { for_votes := 0, against_votes := 0 } else none
    votes := fun _ => false
    next_proposal_id := 1
    governance_token := 1
    quorum := 50 }

/-- `gAfterPropose` after account 7 voted For with oracle reads
`balance_of = 1`, `total_supply = 2`, i.e. weight `1 * 100 / 2 = 50`. -/
def gVoted : Governor :=
  { mark_voted gAfterPropose 0 7 with
    proposal_votes := fun i =>
      if i = 0 then some { for_votes := 50, against_votes := 0 }
      else (mark_voted gAfterPropose 0 7).proposal_votes i }

theorem steps_new_gAfterPropose : Steps (Governor.new 1 50) gAfterPropose :=
  Relation.ReflTransGen.single
    (Step.prop_step 0 9 100 1 (.ok ()) (by decide) (by decide) (by decide) rfl)

theorem steps_new_gVoted : Steps (Governor.new 1 50) gVoted :=
  steps_new_gAfterPropose.tail
    (Step.vote_step 0 7 0 .For (some 1) (some 2) (.ok ()) (by decide)
      (by intro x hx; cases hx; decide) (by intro x hx; cases hx; decide) rfl)

theorem gAfterPropose_reachable : Reachable gAfterPropose :=
  ⟨1, 50, by decide, steps_new_gAfterPropose⟩

theorem gVoted_reachable : Reachable gVoted :=
  ⟨1, 50, by decide, steps_new_gVoted⟩

/-! ### C6 and C7: `propose` -/

/-- C6: for every successful `propose(to, amount, duration)` (amount > 0 and
duration > 0 are implied by success), a Proposal is stored at the pre-call
counter value with `vote_start` equal to the current engine time,
`vote_end = vote_start + duration * 60` exactly, `executed = false`, and the
given recipient and amount; a zeroed ProposalVote is stored under the same
id; and `next_proposal_id` increases by exactly 1. -/
theorem propose_success_stores (g g' : Governor) (t dst amount duration : Nat)
    (h : propose g t dst amount duration = some (.ok (), g')) :
    g'.proposals g.next_proposal_id =
      some { «to» := dst, vote_start := t, vote_end := t + duration * 60,
             executed := false, amount := amount } ∧
    g'.proposal_votes g.next_proposal_id =
      some { for_votes := 0, against_votes := 0 } ∧
    g'.next_proposal_id = g.next_proposal_id + 1 := by
  unfold propose at h
  repeat' split at h
  all_goals try exact Option.noConfusion h
  all_goals (injection h with h1; injection h1 with hr hg)
  all_goals try exact Except.noConfusion hr
  subst hg
  refine ⟨?_, ?_, rfl⟩
  · show (if g.next_proposal_id = g.next_proposal_id then _ else _) = _
    rw [if_pos rfl]
    rfl
  · show (if g.next_proposal_id = g.next_proposal_id then _ else _) = _
    rw [if_pos rfl]

/-- Witness for C6 at the concrete scenario of the repository's
`propose_works` test. -/
theorem propose_success_stores_w :
    gAfterPropose.proposals 0 = some pDemo ∧
    gAfterPropose.proposal_votes 0 = some { for_votes := 0, against_votes := 0 } ∧
    gAfterPropose.next_proposal_id = 1 :=
  propose_success_stores (Governor.new 1 50) gAfterPropose 0 9 100 1 rfl

/-- C7: `propose` validates amount before duration: with amount = 0 it
returns `AmountShouldNotBeZero` whatever the duration; with amount ≠ 0 and
duration = 0 it returns `DurationError`; both error paths return the state
(counter and both stores) unchanged. -/
theorem propose_validation_order (g : Governor) (t dst amount duration : Nat) :
    (amount = 0 → propose g t dst amount duration =
      some (.error .AmountShouldNotBeZero, g)) ∧
    (amount ≠ 0 → duration = 0 → propose g t dst amount duration =
      some (.error .DurationError, g)) := by
  constructor
  · intro h0
    unfold propose
    rw [if_pos h0]
  · intro h0 hd
    unfold propose
    rw [if_neg h0, if_pos hd]

/-- Witness for C7: amount = 0 wins even when duration is also 0, and the
counter stays at 0. -/
theorem propose_validation_order_w :
    propose (Governor.new 1 50) 0 9 0 0 =
      some (.error .AmountShouldNotBeZero, Governor.new 1 50) ∧
    propose (Governor.new 1 50) 5 9 100 0 =
      some (.error .DurationError, Governor.new 1 50) :=
  ⟨(propose_validation_order (Governor.new 1 50) 0 9 0 0).1 rfl,
   (propose_validation_order (Governor.new 1 50) 5 9 100 0).2 (by decide) rfl⟩

/-- `gAfterPropose` with account 7 marked as having voted on proposal 0
(the state left by a first `vote` whose weight computation failed). -/
def gMarked : Governor := mark_voted gAfterPropose 0 7

/-! ### C8: `vote` check ordering -/

theorem get_vote_weight_error {b s : Option Balance} {e : GovernorError}
    (h : get_vote_weight b s = some (.error e)) : e = .TransactionFailed := by
  unfold get_vote_weight at h
  repeat' split at h
  all_goals try exact Option.noConfusion h
  all_goals (injection h with h1)
  all_goals try exact Except.noConfusion h1
  all_goals (injection h1 with h2)
  all_goals exact h2.symm

theorem vote_expired_only {g g' : Governor} {t caller pid : Nat} {v : VoteType}
    {b s : Option Balance}
    (h : vote g t caller pid v b s = some (.error .VotePeriodExpired, g')) :
    ∃ p, g.proposals pid = some p ∧ p.vote_end < t := by
  unfold vote at h
  repeat' split at h
  all_goals try exact Option.noConfusion h
  all_goals (injection h with h1; injection h1 with hr hg)
  all_goals try exact Except.noConfusion hr
  all_goals try (injection hr with he; exact GovernorError.noConfusion he)
  · -- the genuine `VotePeriodExpired` branch
    rename_i p heq hex hlt
    exact ⟨p, heq, hlt⟩
  · -- weight-failure branch: the error is always `TransactionFailed`
    rename_i e heq2
    injection hr with he
    have hTF := get_vote_weight_error heq2
    rw [hTF] at he
    exact GovernorError.noConfusion he

/-- C8: `vote` performs its checks in exactly this order, earlier checks
taking precedence: unknown id → `ProposalNotFound`; then stored
`executed = true` → `ProposalAlreadyExecuted`; then current time strictly
greater than `vote_end` → `VotePeriodExpired`; then an existing
(proposal, caller) marker → `AlreadyVoted`; and a vote at time exactly
`vote_end` is never `VotePeriodExpired`. -/
theorem vote_check_order (g : Governor) (t caller pid : Nat) (v : VoteType)
    (b s : Option Balance) :
    (g.proposals pid = none →
      vote g t caller pid v b s = some (.error .ProposalNotFound, g)) ∧
    (∀ p, g.proposals pid = some p → p.executed = true →
      vote g t caller pid v b s = some (.error .ProposalAlreadyExecuted, g)) ∧
    (∀ p, g.proposals pid = some p → p.executed = false → p.vote_end < t →
      vote g t caller pid v b s = some (.error .VotePeriodExpired, g)) ∧
    (∀ p, g.proposals pid = some p → p.executed = false → ¬p.vote_end < t →
      g.votes (pid, caller) = true →
      vote g t caller pid v b s = some (.error .AlreadyVoted, g)) ∧
    (∀ p, g.proposals pid = some p → t = p.vote_end →
      (vote g t caller pid v b s).map Prod.fst ≠
        some (.error .VotePeriodExpired)) := by
  refine ⟨?_, ?_, ?_, ?_, ?_⟩
  · intro hp
    unfold vote
    rw [hp]
  · intro p hp hex
    unfold vote
    rw [hp]
    simp [hex]
  · intro p hp hex hlt
    unfold vote
    rw [hp]
    simp [hex, hlt]
  · intro p hp hex hexp hv2
    unfold vote
    rw [hp]
    simp [hex, hexp, hv2]
  · intro p hp ht hcontra
    obtain ⟨a, hveq, hfst⟩ := Option.map_eq_some'.mp hcontra
    have hpair : a = (.error .VotePeriodExpired, a.2) := Prod.ext hfst rfl
    rw [hpair] at hveq
    obtain ⟨p', hp', hlt'⟩ := vote_expired_only hveq
    rw [hp] at hp'
    injection hp' with hpp
    subst hpp
    rw [ht] at hlt'
    exact lt_irrefl _ hlt'

/-- Witness for C8: with the voter already marked and the clock exactly at
`vote_end`, the fourth check fires (`AlreadyVoted`), not expiry. -/
theorem vote_check_order_w :
    vote gMarked 60 7 0 .Against (some 1) (some 2) =
      some (.error .AlreadyVoted, gMarked) :=
  (vote_check_order gMarked 60 7 0 .Against (some 1) (some 2)).2.2.2.1
    pDemo rfl rfl (by decide) rfl

/-! ### C3: totality of `vote` -/

/-- C3 (amended): `vote` returns a value — success or exactly one enumerated
error — for every oracle outcome in which the weight computation and tally
update cannot panic: the reported balance satisfies
`caller_balance * 100 < 2^128`, the reported total supply is not zero, and
the updated tally stays below `2^128`.  (The unguarded tally lookup never
panics on a reachable state.)  With a zero total supply the division in
`get_vote_weight` panics and the call traps — see the counterexample. -/
theorem vote_no_trap (g : Governor) (t caller pid : Nat) (v : VoteType)
    (b s : Option Balance)
    (hg : Reachable g)
    (hb : ∀ x, b = some x → x * 100 < U128_MOD)
    (hs : s ≠ some 0)
    (hpv : ∀ pv x y, g.proposal_votes pid = some pv → b = some x → s = some y →
      pv.for_votes + x * 100 / y < U128_MOD ∧
      pv.against_votes + x * 100 / y < U128_MOD) :
    (vote g t caller pid v b s).isSome := by
  unfold vote
  cases hp : g.proposals pid with
  | none => rfl
  | some p =>
    by_cases hex : p.executed = true
    · simp [hex]
    · by_cases hexp : p.vote_end < t
      · simp [hex, hexp]
      · by_cases hv2 : g.votes (pid, caller) = true
        · simp [hex, hexp, hv2]
        · simp only [hex, hexp, hv2, if_false, if_neg, not_false_eq_true]
          rcases b with _ | x
          · rfl
          rcases s with _ | y
          · rfl
          have hx : x * 100 < U128_MOD := hb x rfl
          have hy : y ≠ 0 := fun h => hs (by rw [h])
          have hw : get_vote_weight (some x) (some y) =
              some (.ok (x * 100 / y)) := by
            show (if U128_MOD ≤ x * 100 then none
              else if y = 0 then none
              else some (Except.ok (x * 100 / y))) = some (Except.ok (x * 100 / y))
            rw [if_neg (not_le.mpr hx), if_neg hy]
          rw [hw]
          have hpsome : (g.proposal_votes pid).isSome :=
            ((reachable_inv hg pid).2).mp (by rw [hp]; rfl)
          obtain ⟨pv, hpveq⟩ := Option.isSome_iff_exists.mp hpsome
          have hmv : (mark_voted g pid caller).proposal_votes pid = some pv := hpveq
          rw [hmv]
          obtain ⟨hf, hag⟩ := hpv pv x y hpveq rfl rfl
          cases v
          · simp [not_le.mpr hf]
          · simp [not_le.mpr hag]

/-- Witness for C3 at a concrete reachable state and well-behaved oracle
outcome. -/
theorem vote_no_trap_w :
    (vote gAfterPropose 0 8 0 .Against (some 3) (some 4)).isSome :=
  vote_no_trap gAfterPropose 0 8 0 .Against (some 3) (some 4)
    gAfterPropose_reachable
    (by intro x hx; cases hx; decide)
    (by decide)
    (by
      intro pv x y hpv hx hy
      cases hx
      cases hy
      injection hpv with h
      subst h
      constructor <;> decide)

/-- C3 counterexample: at a reachable state, with the oracle call for the
balance succeeding and the total supply reported as zero, `vote` traps
(division by zero in `get_vote_weight`) instead of returning success or an
enumerated error. -/
theorem vote_div_by_zero_trap :
    vote gAfterPropose 0 7 0 .For (some 0) (some 0) = none := rfl

/-! ### C4: the voted marker is recorded before the weight computation -/

theorem vote_passed_checks {g g' : Governor} {t caller pid : Nat} {v : VoteType}
    {b s : Option Balance} {r : Except GovernorError Unit}
    (h : vote g t caller pid v b s = some (r, g'))
    (hr : r = .ok () ∨ r = .error .TransactionFailed) :
    (∃ p, g.proposals pid = some p ∧ p.executed = false) ∧
    g'.votes (pid, caller) = true := by
  unfold vote at h
  repeat' split at h
  all_goals try exact Option.noConfusion h
  all_goals injection h with h1
  all_goals injection h1 with hr2 hg
  all_goals rw [← hr2] at hr
  all_goals subst hg
  all_goals try (rcases hr with h2 | h2 <;> (exfalso; revert h2; simp; done))
  · -- weight computation failed with `TransactionFailed`
    rename_i x1 p heq hex hexp hvoted x0 e heq2
    refine ⟨⟨p, heq, by simpa using hex⟩, ?_⟩
    show (if (pid, caller) = (pid, caller) then true else _) = true
    rw [if_pos rfl]
  · -- successful `For` vote
    rename_i x2 p heq hex hexp hvoted x1 w heq2 x0 pv heq3 hv hov
    refine ⟨⟨p, heq, by simpa using hex⟩, ?_⟩
    show (if (pid, caller) = (pid, caller) then true else _) = true
    rw [if_pos rfl]
  · -- successful `Against` vote
    rename_i x2 p heq hex hexp hvoted x1 w heq2 x0 pv heq3 hv hov
    refine ⟨⟨p, heq, by simpa using hex⟩, ?_⟩
    show (if (pid, caller) = (pid, caller) then true else _) = true
    rw [if_pos rfl]

/-- C4: the (proposal, caller) marker is recorded before the weight
computation, so after a first `vote` that passed checks 1-4 — also one that
then failed with `TransactionFailed` — every subsequent non-expired `vote`
by the same caller on the same proposal, after any further engine activity,
fails with `AlreadyVoted`, regardless of vote direction. -/
theorem vote_marker_recorded_first
    (g g₁ g₂ : Governor) (t t' caller pid : Nat) (v₁ v₂ : VoteType)
    (b₁ s₁ b₂ s₂ : Option Balance) (r₁ : Except GovernorError Unit)
    (hreach : Reachable g)
    (h₁ : vote g t caller pid v₁ b₁ s₁ = some (r₁, g₁))
    (hr : r₁ = .ok () ∨ r₁ = .error .TransactionFailed)
    (hsteps : Steps g₁ g₂)
    (hexp : ∀ p, g₂.proposals pid = some p → ¬p.vote_end < t') :
    vote g₂ t' caller pid v₂ b₂ s₂ = some (.error .AlreadyVoted, g₂) := by
  have hinv : GovInv g := reachable_inv hreach
  obtain ⟨⟨p, hp, hex⟩, hmark⟩ := vote_passed_checks h₁ hr
  have hinv₁ : GovInv g₁ := vote_inv h₁ hinv
  obtain ⟨-, hpersist, hvmono⟩ := steps_mono hsteps hinv₁
  have hp₁ : g₁.proposals pid = some p := by
    rw [(vote_state h₁).1]
    exact hp
  have hp₂ : g₂.proposals pid = some p := hpersist pid p hp₁
  have hm₂ : g₂.votes (pid, caller) = true := hvmono _ hmark
  have hnexp : ¬p.vote_end < t' := hexp p hp₂
  unfold vote
  rw [hp₂]
  simp [hex, hnexp, hm₂]

/-- Witness for C4: a first For-vote by account 7 fails with
`TransactionFailed` (balance oracle call fails) after marking the voter; a
later Against-vote by the same account is rejected with `AlreadyVoted`. -/
theorem vote_marker_recorded_first_w :
    vote gMarked 30 7 0 .Against (some 5) (some 10) =
      some (.error .AlreadyVoted, gMarked) :=
  vote_marker_recorded_first gAfterPropose gMarked gMarked 0 30 7 0
    .For .Against none none (some 5) (some 10) (.error .TransactionFailed)
    gAfterPropose_reachable rfl (Or.inr rfl) Relation.ReflTransGen.refl
    (by
      intro p hp
      injection hp with hpd
      rw [← hpd]
      decide)

/-! ### C9: `transfer` -/

/-- C9: `transfer` fails with `NotEnoughBalance` when the amount exceeds the
engine's own balance; otherwise the native value-transfer primitive is
invoked, any failure of it maps to `TransactionFailed`, and success returns
unit.  In every case the contract storage is returned unchanged. -/
theorem transfer_spec (g : Governor) (envB : Nat) (tOk : Bool)
    (dst amount : Nat) :
    (envB < amount →
      transfer g envB tOk dst amount = (.error .NotEnoughBalance, g)) ∧
    (¬envB < amount → tOk = true →
      transfer g envB tOk dst amount = (.ok (), g)) ∧
    (¬envB < amount → tOk = false →
      transfer g envB tOk dst amount = (.error .TransactionFailed, g)) := by
  refine ⟨fun h1 => ?_, fun h1 h2 => ?_, fun h1 h2 => ?_⟩
  · simp [transfer, transfer_result, h1]
  · simp [transfer, transfer_result, h1, h2]
  · simp [transfer, transfer_result, h1, h2]

/-- Witness for C9, mirroring the repository's `transfer_works` test
(balance 1000: a transfer of 1001 is refused, one of 100 goes through). -/
theorem transfer_spec_w :
    transfer (Governor.new 1 50) 1000 true 2 1001 =
      (.error .NotEnoughBalance, Governor.new 1 50) ∧
    transfer (Governor.new 1 50) 1000 true 2 100 = (.ok (), Governor.new 1 50) ∧
    transfer (Governor.new 1 50) 1000 false 2 100 =
      (.error .TransactionFailed, Governor.new 1 50) :=
  ⟨(transfer_spec (Governor.new 1 50) 1000 true 2 1001).1 (by decide),
   (transfer_spec (Governor.new 1 50) 1000 true 2 100).2.1 (by decide) rfl,
   (transfer_spec (Governor.new 1 50) 1000 false 2 100).2.2 (by decide) rfl⟩

/-! ### C2 and C5: the quorum and majority checks of `execute` -/

/-- C2 (amended): for a live proposal whose tally sum fits in u128, `execute`
compares the sum truncated to 8 bits (`as u8`, i.e. mod 2^8) against the
quorum: a truncated sum below the quorum yields `QuorumNotReached`, and one
at or above it passes the check, `execute` proceeding to the majority check
and, if that passes, to the transfer.  (A tally whose true sum reaches 2^128
instead traps before the cast — see the counterexample.) -/
theorem execute_quorum_truncated (g : Governor) (pid envB : Nat) (tOk : Bool)
    (p : Proposal) (pv : ProposalVote)
    (hp : g.proposals pid = some p) (hex : p.executed = false)
    (hpv : g.proposal_votes pid = some pv)
    (hlt : pv.for_votes + pv.against_votes < U128_MOD) :
    ((pv.for_votes + pv.against_votes) % 256 < g.quorum →
      execute g pid envB tOk = some (.error .QuorumNotReached, g)) ∧
    (g.quorum ≤ (pv.for_votes + pv.against_votes) % 256 →
      execute g pid envB tOk =
        some ((if pv.for_votes < pv.against_votes then
                 .error .ProposalNotAccepted
               else transfer_result envB tOk p.amount), g)) := by
  constructor
  · intro hq
    unfold execute
    rw [hp]
    simp [hex, hpv, not_le.mpr hlt, hq]
  · intro hq
    unfold execute
    rw [hp]
    by_cases hfa : pv.for_votes < pv.against_votes
    · simp [hex, hpv, not_le.mpr hlt, not_lt.mpr hq, hfa]
    · simp [hex, hpv, not_le.mpr hlt, not_lt.mpr hq, hfa, hp]

/-- The engine after a second proposal-0 tally of 30 For / 19 Against
(truncated sum 49, one short of the quorum of 50). -/
def gT49 : Governor :=
  { gAfterPropose with
    proposal_votes := fun i =>
      if i = 0 then some { for_votes := 30, against_votes := 19 } else none }

/-- Witness for C2: with quorum 50, a truncated sum of 49 fails with
`QuorumNotReached` and one of exactly 50 passes (and here executes). -/
theorem execute_quorum_truncated_w :
    execute gT49 0 1000 true = some (.error .QuorumNotReached, gT49) ∧
    execute gVoted 0 1000 true = some (.ok (), gVoted) :=
  ⟨(execute_quorum_truncated gT49 0 1000 true pDemo
      { for_votes := 30, against_votes := 19 } rfl rfl rfl (by decide)).1
      (by decide),
   (execute_quorum_truncated gVoted 0 1000 true pDemo
      { for_votes := 50, against_votes := 0 } rfl rfl rfl (by decide)).2
      (by decide)⟩

/-- A stored tally of 2^127 For and 2^127 Against (a u128 value each). -/
def gBig : Governor :=
  { gAfterPropose with
    proposal_votes := fun i =>
      if i = 0 then some { for_votes := 2 ^ 127, against_votes := 2 ^ 127 }
      else none }

/-- C2 counterexample: this stored tally's truncated sum is 0 < quorum, so
the claim demands `QuorumNotReached`; the code instead traps, because the
checked u128 addition `for_votes + against_votes` overflows before the
`as u8` cast. -/
theorem execute_quorum_overflow_trap :
    execute gBig 0 1000 true = none ∧
    (2 ^ 127 + 2 ^ 127) % 256 < gBig.quorum :=
  ⟨rfl, by decide⟩

theorem transfer_result_cases (envB : Nat) (tOk : Bool) (amount : Balance) :
    transfer_result envB tOk amount = .error .NotEnoughBalance ∨
    transfer_result envB tOk amount = .ok () ∨
    transfer_result envB tOk amount = .error .TransactionFailed := by
  unfold transfer_result
  by_cases h1 : envB < amount
  · left
    rw [if_pos h1]
  · rw [if_neg h1]
    cases tOk
    · right; right; simp
    · right; left; simp

/-- C5 (amended): for a live proposal whose tally sum fits in u128 and whose
truncated sum meets the quorum, `execute` rejects with `ProposalNotAccepted`
exactly when `for_votes < against_votes` (strict): on a tie execution
proceeds and the transfer is attempted, its result being returned.  (A tie
whose true sum reaches 2^128 instead traps — see the counterexample.) -/
theorem execute_majority_strict (g : Governor) (pid envB : Nat) (tOk : Bool)
    (p : Proposal) (pv : ProposalVote)
    (hp : g.proposals pid = some p) (hex : p.executed = false)
    (hpv : g.proposal_votes pid = some pv)
    (hlt : pv.for_votes + pv.against_votes < U128_MOD)
    (hq : g.quorum ≤ (pv.for_votes + pv.against_votes) % 256) :
    (execute g pid envB tOk = some (.error .ProposalNotAccepted, g) ↔
      pv.for_votes < pv.against_votes) ∧
    (pv.for_votes = pv.against_votes →
      execute g pid envB tOk = some (transfer_result envB tOk p.amount, g)) := by
  have hchar := (execute_quorum_truncated g pid envB tOk p pv hp hex hpv hlt).2 hq
  constructor
  · constructor
    · intro hres
      by_contra hfa
      rw [hchar, if_neg hfa] at hres
      injection hres with h1
      injection h1 with h2 h3
      rcases transfer_result_cases envB tOk p.amount with hc | hc | hc <;>
        rw [hc] at h2
      · injection h2 with h4
        exact GovernorError.noConfusion h4
      · exact Except.noConfusion h2
      · injection h2 with h4
        exact GovernorError.noConfusion h4
    · intro hfa
      rw [hchar, if_pos hfa]
  · intro htie
    rw [hchar, if_neg (by rw [htie]; exact lt_irrefl _)]

/-- The engine with a tied proposal-0 tally of 25 For / 25 Against
(truncated sum 50, quorum met). -/
def gTie : Governor :=
  { gAfterPropose with
    proposal_votes := fun i =>
      if i = 0 then some { for_votes := 25, against_votes := 25 } else none }

/-- Witness for C5: the tie executes — the transfer is attempted and
succeeds. -/
theorem execute_majority_strict_w :
    execute gTie 0 1000 true = some (.ok (), gTie) :=
  (execute_majority_strict gTie 0 1000 true pDemo
    { for_votes := 25, against_votes := 25 } rfl rfl rfl (by decide)
    (by decide)).2 rfl

/-- A tied stored tally of 2^127 + 25 each: the truncated sum is 50, so the
quorum of 50 is met. -/
def gTieBig : Governor :=
  { gAfterPropose with
    proposal_votes := fun i =>
      if i = 0 then
        some { for_votes := 2 ^ 127 + 25, against_votes := 2 ^ 127 + 25 }
      else none }

/-- C5 counterexample: a tie with the (truncated) quorum met, for which the
claim demands that execution proceeds to the transfer; the code instead
traps on the checked u128 addition of the tally sum. -/
theorem execute_tie_overflow_trap :
    execute gTieBig 0 1000 true = none ∧
    gTieBig.quorum ≤ ((2 ^ 127 + 25) + (2 ^ 127 + 25)) % 256 :=
  ⟨rfl, by decide⟩

/-! ### C1: the `executed` flag is never persisted -/

/-- C1 (code bug): at the reachable state `gVoted` (one proposal, tally 50
For / 0 Against, quorum 50), `execute` succeeds but returns the storage
unchanged — the source sets `executed = true` only on a local copy and never
inserts it back (its own comment says "Save that proposal has been
executed").  The stored proposal still has `executed = false`, a second
`execute` succeeds again (re-attempting the transfer) instead of failing
with `ProposalAlreadyExecuted`, and a later `vote` also succeeds. -/
theorem execute_missing_persist :
    Reachable gVoted ∧
    execute gVoted 0 1000 true = some (.ok (), gVoted) ∧
    (gVoted.proposals 0).map Proposal.executed = some false ∧
    execute gVoted 0 1000 true ≠ some (.error .ProposalAlreadyExecuted, gVoted) ∧
    (vote gVoted 0 8 0 .For (some 1) (some 2)).map Prod.fst = some (.ok ()) := by
  refine ⟨gVoted_reachable, rfl, rfl, ?_, rfl⟩
  intro hc
  injection hc with h1
  injection h1 with h2 h3
  exact Except.noConfusion h2

/-! ### C10: store alignment on all reachable states -/

/-- C10: in every state reachable by any sequence of engine operations from
construction, a proposal id has a Proposal entry iff it is below
`next_proposal_id`, iff it has a ProposalVote entry; consequently the
unguarded ProposalVote lookups in `vote` and `execute` (after the proposal
existence check) never hit the missing-entry branch. -/
theorem reachable_store_alignment (g : Governor) (hg : Reachable g)
    (p : ProposalId) :
    ((g.proposals p).isSome ↔ p < g.next_proposal_id) ∧
    ((g.proposals p).isSome ↔ (g.proposal_votes p).isSome) :=
  reachable_inv hg p

/-- Witness for C10 at a concrete reachable state with one proposal. -/
theorem reachable_store_alignment_w :
    ((gAfterPropose.proposals 0).isSome ↔ 0 < gAfterPropose.next_proposal_id) ∧
    ((gAfterPropose.proposals 0).isSome ↔
      (gAfterPropose.proposal_votes 0).isSome) :=
  reachable_store_alignment gAfterPropose gAfterPropose_reachable 0
